import Mathlib

/-!
Verification of the IPFS storage plugin (web3.js plugin).

The repository has two variants of the same plugin source file:
* `src/unnamed/part_000` — the variant whose `storeCIDInRegistry` checks the
  default signing account and submits the write with `.send({ from })`;
* `src/src/ipfs_storage_plugin.ts` — the variant that reads a local file path
  and issues the store through a read-only `.call()` with no signer check.

The embedding below models the plugin state, the constructor, and the three
operations (`uploadLocalFileToIPFS`, `storeCIDInRegistry`,
`listCIDsForAddress`).  External collaborators — the IPFS client, the bound
registry contract and the chain — are modelled as oracles (records of
functions), and every operation additionally returns the list of collaborator
calls it issued, so that claims about "exactly once", "zero network calls" and
argument fidelity can be stated and proved.
-/

namespace IPFSStorage

/-- Modelled from the spec: the built-in deployed address constant exported by
`./constants`, a module that is not part of the sources; the spec describes it
only as "a built-in deployed address constant", so the concrete string here is
a stand-in value.  No claim depends on the actual value. -/
def REGISTRY_ADDRESS : String := "0x5FbDB2315678afecb367f032d93F642f64180aa3"

/-- Modelled from the spec: the block number at which the registry contract was
deployed, exported by `./constants` (not part of the sources); used as the
default lower bound for event scans.  The concrete value is a stand-in. -/
def REGISTRY_DEPLOYMENT_BLOCK : Nat := 0

/-- A registry contract interface description.  The only observable the plugin
code inspects is whether the bound interface exposes a callable `store` method
(`typeof _contract.methods.store !== "function"`). -/
structure Abi where
  hasStore : Bool
deriving DecidableEq, Repr

/-- Modelled from the spec: the built-in interface description `RegistryABI`
exported by `./registry_abi` (not part of the sources); per the spec the
registry exposes a `store(cid)` mutation, so the built-in ABI has `store`. -/
def RegistryABI : Abi := { hasStore := true }

/-- A content identifier as produced by the IPFS client; opaque to the plugin,
which only ever passes it through and takes its `toString()` form. -/
structure CID where
  toStr : String
deriving DecidableEq, Repr

/-- Result of `ipfsClient.add`: the record whose `cid` field the plugin uses. -/
structure AddResult where
  cid : CID
deriving DecidableEq, Repr

/-- An opaque transaction receipt as returned by the chain for a transaction. -/
structure TransactionReceipt where
  status : Nat
deriving DecidableEq, Repr

/-- A `CIDStored` event log entry: block number plus the `owner` and `cid`
return values. -/
structure EventLog where
  blockNumber : Nat
  owner : String
  cid : String
deriving DecidableEq, Repr

/-- The flattened errors thrown by the plugin.  Every throw site in the source
is `throw new Error(<message>)` with a fixed flat message; each distinct
message is one constructor here, and `PluginError.message` recovers the exact
message string of the source. -/
inductive PluginError where
  | storageUploadFailed
  | contractMethodMissing
  | noSignerConfigured
  | registryWriteFailed
  | registryQueryFailed
deriving DecidableEq, Repr

/-- The exact flat message each throw site attaches (copied from the source). -/
def PluginError.message : PluginError → String
  | PluginError.storageUploadFailed => "Failed to upload file to IPFS."
  | PluginError.contractMethodMissing =>
      "The store method is not defined in the registry contract."
  | PluginError.noSignerConfigured =>
      "The signer address hasn\x27t been set to the Web3.js Provider instance."
  | PluginError.registryWriteFailed => "Error storing CID in the registry."
  | PluginError.registryQueryFailed => "Failed to retrieve CIDs."

instance {ε α : Type} [DecidableEq ε] [DecidableEq α] : DecidableEq (Except ε α) :=
  fun a b =>
  match a, b with
  | Except.ok x, Except.ok y =>
      if h : x = y then Decidable.isTrue (congrArg Except.ok h)
      else Decidable.isFalse fun hh => h (Except.ok.inj hh)
  | Except.error x, Except.error y =>
      if h : x = y then Decidable.isTrue (congrArg Except.error h)
      else Decidable.isFalse fun hh => h (Except.error.inj hh)
  | Except.ok _, Except.error _ => Decidable.isFalse fun hh => Except.noConfusion hh
  | Except.error _, Except.ok _ => Decidable.isFalse fun hh => Except.noConfusion hh

/-- The host network context the plugin is linked to (`_contract.link(this)`):
the only part the plugin reads is `defaultAccount` (possibly unset). -/
structure HostContext where
  defaultAccount : Option String
deriving DecidableEq, Repr

/-- JavaScript truthiness of `_contract.defaultAccount` as used in
`if (!defaultAccount)`: `undefined` and the empty string are both falsy. -/
def accountFalsy : Option String → Bool
  | none => true
  | some s => s == ""

/-- Oracle for the chain as seen through the bound contract: the outcome of
`store(cidString).send({ from })`, of `store(cidString).call()`, and of
`getPastEvents("CIDStored", { filter: { owner }, fromBlock, toBlock: "latest" })`.
Each takes the bound registry address first. -/
structure Network where
  sendStore : String → String → String → Except Unit TransactionReceipt
  ethCallStore : String → String → Except Unit TransactionReceipt
  getPastEvents : String → String → Nat → Except Unit (List EventLog)

/-- Oracle for the IPFS client: `add(bytes)` content-addresses the bytes and
returns `{ cid }`, or fails. -/
structure IpfsClient where
  add : List Nat → Except Unit AddResult

/-- One collaborator call issued by an operation, in issue order.
`registryWriteRequested` marks an invocation of `storeCIDInRegistry` (the
registry write path being entered with a given CID); the others are actual
collaborator calls. -/
inductive Call where
  | ipfsAdd (bytes : List Nat)
  | registryWriteRequested (cid : CID)
  | storeSend (registryAddress cidString fromAccount : String)
  | storeEthCall (registryAddress cidString : String)
deriving DecidableEq, Repr

/-- Whether a trace entry is a network call (a call that leaves the process),
as opposed to the `registryWriteRequested` marker. -/
def Call.isNetwork : Call → Bool
  | Call.ipfsAdd _ => true
  | Call.registryWriteRequested _ => false
  | Call.storeSend _ _ _ => true
  | Call.storeEthCall _ _ => true

/-- The network calls of a trace. -/
def networkCallsOf (calls : List Call) : List Call :=
  calls.filter Call.isNetwork

/-- The byte arguments of the `ipfsClient.add` calls of a trace. -/
def addCallsOf (calls : List Call) : List (List Nat) :=
  calls.filterMap fun c => match c with
    | Call.ipfsAdd bytes => some bytes
    | _ => none

/-- The CID arguments of the `storeCIDInRegistry` invocations of a trace. -/
def writeRequestsOf (calls : List Call) : List CID :=
  calls.filterMap fun c => match c with
    | Call.registryWriteRequested cid => some cid
    | _ => none

/-- The plugin instance state set up by the constructor.  `ipfsApiUrl` and
`ipfsAuth` configure the IPFS client handle; the registry binding is the
`registryAbi`/`registryAddress` pair. -/
structure IPFSStoragePlugin where
  pluginNamespace : String
  registryAbi : Abi
  registryAddress : String
  ipfsAuth : String
  ipfsApiUrl : String
deriving Repr

/-- The constructor options object (variant `src/unnamed/part_000`):
`ipfsApiUrl` is a required plain string there; the other fields are optional
(`none` models an omitted field, i.e. `undefined`). -/
structure ConstructorOptions where
  ipfsApiUrl : String
  pluginNamespace : Option String
  registryAbi : Option Abi
  registryAddress : Option String
  ipfsAuth : Option String

/-- The constructor body of `IPFSStoragePlugin` (`src/unnamed/part_000`,
lines 44-49; the `src/src` variant has the same assignments).  Note that the
source assigns `this.registryAddress = options.pluginNamespace ?? REGISTRY_ADDRESS`
— the right-hand side reads `pluginNamespace`, not `registryAddress` —
and that `options.registryAddress` is never read. -/
def IPFSStoragePlugin.construct (options : ConstructorOptions) : IPFSStoragePlugin :=
  { pluginNamespace := options.pluginNamespace.getD "IPFSStorage"
    registryAbi := options.registryAbi.getD RegistryABI
    registryAddress := options.pluginNamespace.getD REGISTRY_ADDRESS
    ipfsAuth := options.ipfsAuth.getD ""
    ipfsApiUrl := options.ipfsApiUrl }

/-- `storeCIDInRegistry` of `src/unnamed/part_000` (lines 91-125): bind the
contract, read `defaultAccount` from the linked context, fail with the
store-method error if the ABI lacks `store`, fail with the signer error if
`defaultAccount` is falsy, otherwise `store(cid.toString()).send({ from })`
and return the receipt; a failing send is re-thrown flattened. -/
def storeCIDInRegistry (p : IPFSStoragePlugin) (ctx : HostContext) (net : Network)
    (cid : CID) : Except PluginError TransactionReceipt × List Call :=
  let defaultAccount := ctx.defaultAccount
  if !p.registryAbi.hasStore then
    (Except.error PluginError.contractMethodMissing, [Call.registryWriteRequested cid])
  else if accountFalsy defaultAccount then
    (Except.error PluginError.noSignerConfigured, [Call.registryWriteRequested cid])
  else
    let acct := defaultAccount.getD ""
    match net.sendStore p.registryAddress cid.toStr acct with
    | Except.ok receipt =>
        (Except.ok receipt,
         [Call.registryWriteRequested cid, Call.storeSend p.registryAddress cid.toStr acct])
    | Except.error _ =>
        (Except.error PluginError.registryWriteFailed,
         [Call.registryWriteRequested cid, Call.storeSend p.registryAddress cid.toStr acct])

/-- `uploadLocalFileToIPFS` of `src/unnamed/part_000` (lines 69-81): add the
supplied bytes to IPFS, pass the returned `cid` unchanged to
`storeCIDInRegistry`, and wrap ANY failure of the whole chain (the outer
`catch`) as the flat upload error. -/
def uploadLocalFileToIPFS (p : IPFSStoragePlugin) (ctx : HostContext) (net : Network)
    (ipfs : IpfsClient) (file : List Nat) :
    Except PluginError TransactionReceipt × List Call :=
  match ipfs.add file with
  | Except.error _ => (Except.error PluginError.storageUploadFailed, [Call.ipfsAdd file])
  | Except.ok addedFile =>
    let stored := storeCIDInRegistry p ctx net addedFile.cid
    match stored.fst with
    | Except.ok receipt => (Except.ok receipt, Call.ipfsAdd file :: stored.snd)
    | Except.error _ =>
        (Except.error PluginError.storageUploadFailed, Call.ipfsAdd file :: stored.snd)

/-- A console.log line written by `listCIDsForAddress`: either the
"No CIDs found for address ..." message, the "CIDs stored by address ...:"
header, or one logged `event.returnValues.cid`. -/
inductive LogLine where
  | noCids (addr : String)
  | header (addr : String)
  | cidLine (c : String)
deriving DecidableEq, Repr

/-- The cid values a run of `listCIDsForAddress` yielded (the per-event
`console.log(event.returnValues.cid)` lines, in order). -/
def cidsLogged (logs : List LogLine) : List String :=
  logs.filterMap fun l => match l with
    | LogLine.cidLine c => some c
    | _ => none

/-- `listCIDsForAddress` (identical in both variants; `src/unnamed/part_000`
lines 138-173): query past `CIDStored` events filtered by owner from
`startBlock`; with zero events log the no-CIDs message and return; otherwise
log a header and each event cid; a failing query is re-thrown flattened. -/
def listCIDsForAddress (p : IPFSStoragePlugin) (net : Network)
    (ethereumAddress : String) (startBlock : Nat) :
    Except PluginError Unit × List LogLine :=
  match net.getPastEvents p.registryAddress ethereumAddress startBlock with
  | Except.error _ => (Except.error PluginError.registryQueryFailed, [])
  | Except.ok events =>
    if events.length = 0 then
      (Except.ok (), [LogLine.noCids ethereumAddress])
    else
      (Except.ok (),
       LogLine.header ethereumAddress :: events.map fun e => LogLine.cidLine e.cid)

/-- A call of `listCIDsForAddress` together with the plugin state it leaves
behind: the method assigns to no instance field, so the state it returns is
the state it was given. -/
def IPFSStoragePlugin.listCIDsRun (p : IPFSStoragePlugin) (net : Network)
    (ethereumAddress : String) (startBlock : Nat) :
    (Except PluginError Unit × List LogLine) × IPFSStoragePlugin :=
  (listCIDsForAddress p net ethereumAddress startBlock, p)

namespace LocalVariant

/-- `storeCIDInRegistry` of `src/src/ipfs_storage_plugin.ts` (lines 79-105):
this variant has no signer check and issues the store through a read-only
`store(cid.toString()).call()` (typed in the source as returning a receipt). -/
def storeCIDInRegistry (p : IPFSStoragePlugin) (net : Network) (cid : CID) :
    Except PluginError TransactionReceipt × List Call :=
  if !p.registryAbi.hasStore then
    (Except.error PluginError.contractMethodMissing, [Call.registryWriteRequested cid])
  else
    match net.ethCallStore p.registryAddress cid.toStr with
    | Except.ok receipt =>
        (Except.ok receipt,
         [Call.registryWriteRequested cid, Call.storeEthCall p.registryAddress cid.toStr])
    | Except.error _ =>
        (Except.error PluginError.registryWriteFailed,
         [Call.registryWriteRequested cid, Call.storeEthCall p.registryAddress cid.toStr])

end LocalVariant

/-- Whether a list of block numbers is in non-decreasing order. -/
def nondecreasing : List Nat → Bool
  | [] => true
  | [_] => true
  | a :: b :: rest => Nat.ble a b && nondecreasing (b :: rest)

/-! Concrete collaborator instances used to exercise the operations. -/

/-- A host context with no default signing account configured. -/
def ctxNone : HostContext := { defaultAccount := none }

/-- A host context whose default signing account is `"0xAlice"`. -/
def ctxAlice : HostContext := { defaultAccount := some "0xAlice" }

/-- The plugin produced by the constructor with every optional field omitted. -/
def pluginDefault : IPFSStoragePlugin :=
  IPFSStoragePlugin.construct
    { ipfsApiUrl := "", pluginNamespace := none, registryAbi := none,
      registryAddress := none, ipfsAuth := none }

/-- A plugin whose bound registry interface lacks a callable store method. -/
def pluginNoStore : IPFSStoragePlugin :=
  { pluginNamespace := "IPFSStorage", registryAbi := { hasStore := false },
    registryAddress := REGISTRY_ADDRESS, ipfsAuth := "", ipfsApiUrl := "" }

/-- A chain on which every store succeeds with a status-1 receipt and the
event query finds nothing. -/
def netOk : Network :=
  { sendStore := fun _ _ _ => Except.ok { status := 1 }
    ethCallStore := fun _ _ => Except.ok { status := 1 }
    getPastEvents := fun _ _ _ => Except.ok [] }

/-- A chain on which every collaborator call fails. -/
def netFails : Network :=
  { sendStore := fun _ _ _ => Except.error ()
    ethCallStore := fun _ _ => Except.error ()
    getPastEvents := fun _ _ _ => Except.error () }

/-- A chain holding two `CIDStored` events owned by `"0xAlice"`. -/
def netTwoEvents : Network :=
  { sendStore := fun _ _ _ => Except.ok { status := 1 }
    ethCallStore := fun _ _ => Except.ok { status := 1 }
    getPastEvents := fun _ owner _ =>
      if owner == "0xAlice" then
        Except.ok [{ blockNumber := 5, owner := "0xAlice", cid := "Qm1" },
                   { blockNumber := 7, owner := "0xAlice", cid := "Qm2" }]
      else Except.ok [] }

/-- An IPFS client that content-addresses everything to the fixed CID
`"QmFixed"`. -/
def ipfsFixed : IpfsClient :=
  { add := fun _ => Except.ok { cid := { toStr := "QmFixed" } } }

/-- An IPFS client whose add always fails. -/
def ipfsDown : IpfsClient := { add := fun _ => Except.error () }

/-! Theorems for the claims. -/

/-- C6: if the bound registry contract interface does not expose a callable
store method, `storeCIDInRegistry` fails immediately with the
ContractMethodMissing error and performs zero network calls — in both source
variants. -/
theorem storeCID_method_missing_fails_no_network
    (p : IPFSStoragePlugin) (ctx : HostContext) (net : Network) (cid : CID)
    (h : p.registryAbi.hasStore = false) :
    (storeCIDInRegistry p ctx net cid).fst
      = Except.error PluginError.contractMethodMissing ∧
    networkCallsOf (storeCIDInRegistry p ctx net cid).snd = [] ∧
    (LocalVariant.storeCIDInRegistry p net cid).fst
      = Except.error PluginError.contractMethodMissing ∧
    networkCallsOf (LocalVariant.storeCIDInRegistry p net cid).snd = [] := by
  simp [storeCIDInRegistry, LocalVariant.storeCIDInRegistry, h, networkCallsOf,
        List.filter, Call.isNetwork]

theorem storeCID_method_missing_fails_no_network_witness :
    pluginNoStore.registryAbi.hasStore = false ∧
    (storeCIDInRegistry pluginNoStore ctxNone netOk { toStr := "QmW" }).fst
      = Except.error PluginError.contractMethodMissing ∧
    networkCallsOf (storeCIDInRegistry pluginNoStore ctxNone netOk { toStr := "QmW" }).snd
      = [] :=
  ⟨rfl,
   (storeCID_method_missing_fails_no_network pluginNoStore ctxNone netOk
      { toStr := "QmW" } rfl).1,
   (storeCID_method_missing_fails_no_network pluginNoStore ctxNone netOk
      { toStr := "QmW" } rfl).2.1⟩

/-- C10: when the bound registry interface lacks a callable store method and
simultaneously no default signing account is configured, `storeCIDInRegistry`
throws the ContractMethodMissing error (the store-method check precedes the
signer check), with zero network calls. -/
theorem storeCID_method_missing_precedes_signer
    (p : IPFSStoragePlugin) (ctx : HostContext) (net : Network) (cid : CID)
    (hstore : p.registryAbi.hasStore = false)
    (_hacct : accountFalsy ctx.defaultAccount = true) :
    (storeCIDInRegistry p ctx net cid).fst
      = Except.error PluginError.contractMethodMissing ∧
    networkCallsOf (storeCIDInRegistry p ctx net cid).snd = [] := by
  simp [storeCIDInRegistry, hstore, networkCallsOf, List.filter, Call.isNetwork]

theorem storeCID_method_missing_precedes_signer_witness :
    pluginNoStore.registryAbi.hasStore = false ∧
    accountFalsy ctxNone.defaultAccount = true ∧
    (storeCIDInRegistry pluginNoStore ctxNone netOk { toStr := "QmX" }).fst
      = Except.error PluginError.contractMethodMissing :=
  ⟨rfl, rfl,
   (storeCID_method_missing_precedes_signer pluginNoStore ctxNone netOk
      { toStr := "QmX" } rfl rfl).1⟩

/-- C3 counterexample: in a state with no default signing account where the
bound interface also lacks a store method, `storeCIDInRegistry` fails with
ContractMethodMissing, not with NoSignerConfigured as the claim requires for
every no-signer state. -/
theorem storeCID_no_signer_counterexample :
    accountFalsy ctxNone.defaultAccount = true ∧
    (storeCIDInRegistry pluginNoStore ctxNone netOk { toStr := "QmY" }).fst
      = Except.error PluginError.contractMethodMissing ∧
    (Except.error PluginError.contractMethodMissing :
        Except PluginError TransactionReceipt)
      ≠ Except.error PluginError.noSignerConfigured := by
  decide

/-- C3 (amended): when the bound registry interface does expose a callable
store method, an invocation of `storeCIDInRegistry` with no default signing
account configured fails with the NoSignerConfigured error and issues zero
network calls. -/
theorem storeCID_no_signer_fails_before_network
    (p : IPFSStoragePlugin) (ctx : HostContext) (net : Network) (cid : CID)
    (hstore : p.registryAbi.hasStore = true)
    (hacct : accountFalsy ctx.defaultAccount = true) :
    (storeCIDInRegistry p ctx net cid).fst
      = Except.error PluginError.noSignerConfigured ∧
    networkCallsOf (storeCIDInRegistry p ctx net cid).snd = [] := by
  simp [storeCIDInRegistry, hstore, hacct, networkCallsOf, List.filter, Call.isNetwork]

theorem storeCID_no_signer_fails_before_network_witness :
    pluginDefault.registryAbi.hasStore = true ∧
    accountFalsy ctxNone.defaultAccount = true ∧
    (storeCIDInRegistry pluginDefault ctxNone netOk { toStr := "QmZ" }).fst
      = Except.error PluginError.noSignerConfigured :=
  ⟨rfl, rfl,
   (storeCID_no_signer_fails_before_network pluginDefault ctxNone netOk
      { toStr := "QmZ" } rfl rfl).1⟩

/-- C5: when the preconditions hold (store method present, default signing
account configured) and the chain includes the transaction with a receipt,
`storeCIDInRegistry` submits exactly one state-changing `store(cid.toString())`
call from the default account and returns the resulting receipt. -/
theorem storeCID_sends_store_from_default_account
    (p : IPFSStoragePlugin) (ctx : HostContext) (net : Network) (cid : CID)
    (acct : String) (receipt : TransactionReceipt)
    (hstore : p.registryAbi.hasStore = true)
    (hacct : ctx.defaultAccount = some acct)
    (hne : acct ≠ "")
    (hsend : net.sendStore p.registryAddress cid.toStr acct = Except.ok receipt) :
    (storeCIDInRegistry p ctx net cid).fst = Except.ok receipt ∧
    networkCallsOf (storeCIDInRegistry p ctx net cid).snd
      = [Call.storeSend p.registryAddress cid.toStr acct] := by
  simp [storeCIDInRegistry, hstore, hacct, accountFalsy, hne, hsend,
        networkCallsOf, List.filter, Call.isNetwork]

theorem storeCID_sends_store_from_default_account_witness :
    pluginDefault.registryAbi.hasStore = true ∧
    ctxAlice.defaultAccount = some "0xAlice" ∧
    (storeCIDInRegistry pluginDefault ctxAlice netOk { toStr := "QmS" }).fst
      = Except.ok { status := 1 } ∧
    networkCallsOf (storeCIDInRegistry pluginDefault ctxAlice netOk { toStr := "QmS" }).snd
      = [Call.storeSend pluginDefault.registryAddress "QmS" "0xAlice"] :=
  ⟨rfl, rfl,
   (storeCID_sends_store_from_default_account pluginDefault ctxAlice netOk
      { toStr := "QmS" } "0xAlice" { status := 1 } rfl rfl (by decide) rfl).1,
   (storeCID_sends_store_from_default_account pluginDefault ctxAlice netOk
      { toStr := "QmS" } "0xAlice" { status := 1 } rfl rfl (by decide) rfl).2⟩

/-- C2: evaluating the constructor at options where `registryAddress` is
omitted and `pluginNamespace` is `"MyNamespace"`: the constructed plugin's
`registryAddress` is the namespace string, not the REGISTRY_ADDRESS constant —
the source binds `registryAddress` from `options.pluginNamespace`. -/
theorem constructor_registryAddress_bound_to_namespace :
    (IPFSStoragePlugin.construct
      { ipfsApiUrl := "", pluginNamespace := some "MyNamespace",
        registryAbi := none, registryAddress := none,
        ipfsAuth := none }).registryAddress = "MyNamespace" ∧
    "MyNamespace" ≠ REGISTRY_ADDRESS := by
  constructor
  · rfl
  · decide

/-- The call trace of `storeCIDInRegistry` is either just the invocation
marker (a precondition failed) or the marker followed by the single store
send. -/
theorem storeCID_trace_shape (p : IPFSStoragePlugin) (ctx : HostContext)
    (net : Network) (cid : CID) :
    (storeCIDInRegistry p ctx net cid).snd = [Call.registryWriteRequested cid] ∨
    (storeCIDInRegistry p ctx net cid).snd
      = [Call.registryWriteRequested cid,
         Call.storeSend p.registryAddress cid.toStr (ctx.defaultAccount.getD "")] := by
  unfold storeCIDInRegistry
  dsimp only
  split
  · exact Or.inl rfl
  · split
    · exact Or.inl rfl
    · split <;> exact Or.inr rfl

/-- When the add step returns, the trace of the upload is the add call
followed by the trace of the registry write invoked with the returned CID. -/
theorem upload_snd_of_add_ok (p : IPFSStoragePlugin) (ctx : HostContext)
    (net : Network) (ipfs : IpfsClient) (file : List Nat) (r : AddResult)
    (h : ipfs.add file = Except.ok r) :
    (uploadLocalFileToIPFS p ctx net ipfs file).snd
      = Call.ipfsAdd file :: (storeCIDInRegistry p ctx net r.cid).snd := by
  unfold uploadLocalFileToIPFS
  rw [h]
  dsimp only
  split <;> rfl

/-- C1: `uploadLocalFileToIPFS` calls the storage client's add exactly once
with exactly the supplied bytes; when add returns a CID, it invokes the
registry write exactly once with exactly that CID (no transformation), and
every store transaction in the trace carries that CID's string form; when add
fails, the registry write is never invoked. -/
theorem upload_add_once_registry_once_same_cid
    (p : IPFSStoragePlugin) (ctx : HostContext) (net : Network)
    (ipfs : IpfsClient) (file : List Nat) :
    addCallsOf (uploadLocalFileToIPFS p ctx net ipfs file).snd = [file] ∧
    (∀ r, ipfs.add file = Except.ok r →
      writeRequestsOf (uploadLocalFileToIPFS p ctx net ipfs file).snd = [r.cid] ∧
      ∀ a c f, Call.storeSend a c f ∈ (uploadLocalFileToIPFS p ctx net ipfs file).snd →
        c = r.cid.toStr) ∧
    (∀ e, ipfs.add file = Except.error e →
      writeRequestsOf (uploadLocalFileToIPFS p ctx net ipfs file).snd = []) := by
  cases hadd : ipfs.add file with
  | error e =>
      refine ⟨?_, ?_, ?_⟩
      · simp [uploadLocalFileToIPFS, hadd, addCallsOf]
      · intro r hr
        exact absurd hr (by simp)
      · intro e' _
        simp [uploadLocalFileToIPFS, hadd, writeRequestsOf]
  | ok r =>
      have hsnd := upload_snd_of_add_ok p ctx net ipfs file r hadd
      rcases storeCID_trace_shape p ctx net r.cid with hs | hs <;>
        rw [hs] at hsnd <;>
        rw [hsnd] <;>
        refine ⟨?_, ?_, ?_⟩
      · simp [addCallsOf]
      · intro r' hr'
        cases Except.ok.inj hr'
        refine ⟨by simp [writeRequestsOf], ?_⟩
        intro a c f hmem
        simp at hmem
      · intro e' he'
        exact absurd he' (by simp)
      · simp [addCallsOf]
      · intro r' hr'
        cases Except.ok.inj hr'
        refine ⟨by simp [writeRequestsOf], ?_⟩
        intro a c f hmem
        simp at hmem
        exact hmem.2.1
      · intro e' he'
        exact absurd he' (by simp)

theorem upload_add_once_registry_once_same_cid_witness :
    addCallsOf (uploadLocalFileToIPFS pluginDefault ctxAlice netOk ipfsFixed
        [1, 2, 3]).snd = [[1, 2, 3]] ∧
    writeRequestsOf (uploadLocalFileToIPFS pluginDefault ctxAlice netOk ipfsFixed
        [1, 2, 3]).snd = [{ toStr := "QmFixed" }] :=
  ⟨(upload_add_once_registry_once_same_cid pluginDefault ctxAlice netOk ipfsFixed
      [1, 2, 3]).1,
   ((upload_add_once_registry_once_same_cid pluginDefault ctxAlice netOk ipfsFixed
      [1, 2, 3]).2.1 { cid := { toStr := "QmFixed" } } rfl).1⟩

/-- C8 counterexample: a run in which the add step succeeds and the registry
send fails: the registry step itself throws the registry-write error, but
`uploadLocalFileToIPFS` re-wraps it in its outer catch and surfaces the
storage-upload error rather than RegistryWriteFailed. -/
theorem upload_registry_failure_rewrapped_counterexample :
    (storeCIDInRegistry pluginDefault ctxAlice netFails { toStr := "QmFixed" }).fst
      = Except.error PluginError.registryWriteFailed ∧
    (uploadLocalFileToIPFS pluginDefault ctxAlice netFails ipfsFixed [104, 105]).fst
      = Except.error PluginError.storageUploadFailed ∧
    PluginError.storageUploadFailed ≠ PluginError.registryWriteFailed := by
  decide

/-- C8 (amended): every failing run of `uploadLocalFileToIPFS` fails with a
wrapped error carrying only a flat human-readable message, and that error is
always StorageUploadFailed ("Failed to upload file to IPFS.") — the outer
catch re-wraps registry-step failures too, discarding the intermediate
RegistryWriteFailed (and any other) error. -/
theorem upload_failure_always_flat_upload_error
    (p : IPFSStoragePlugin) (ctx : HostContext) (net : Network)
    (ipfs : IpfsClient) (file : List Nat) (e : PluginError)
    (h : (uploadLocalFileToIPFS p ctx net ipfs file).fst = Except.error e) :
    e = PluginError.storageUploadFailed ∧
    PluginError.message e = "Failed to upload file to IPFS." := by
  have he : e = PluginError.storageUploadFailed := by
    unfold uploadLocalFileToIPFS at h
    split at h
    · exact (Except.error.inj h).symm
    · dsimp only at h
      split at h
      · exact absurd h (by simp)
      · exact (Except.error.inj h).symm
  exact ⟨he, by rw [he]; rfl⟩

theorem upload_failure_always_flat_upload_error_witness :
    (uploadLocalFileToIPFS pluginDefault ctxAlice netFails ipfsFixed [7]).fst
      = Except.error PluginError.storageUploadFailed ∧
    PluginError.message PluginError.storageUploadFailed
      = "Failed to upload file to IPFS." :=
  ⟨by decide,
   (upload_failure_always_flat_upload_error pluginDefault ctxAlice netFails ipfsFixed
      [7] PluginError.storageUploadFailed (by decide)).2⟩

/-- C7: when the event query succeeds with zero matching events,
`listCIDsForAddress` does not fail: it logs the no-CIDs message and returns
normally with no yielded CIDs. -/
theorem listCIDs_zero_events_ok
    (p : IPFSStoragePlugin) (net : Network) (addr : String) (sb : Nat)
    (hq : net.getPastEvents p.registryAddress addr sb = Except.ok []) :
    (listCIDsForAddress p net addr sb).fst = Except.ok () ∧
    (listCIDsForAddress p net addr sb).snd = [LogLine.noCids addr] ∧
    cidsLogged (listCIDsForAddress p net addr sb).snd = [] := by
  unfold listCIDsForAddress
  rw [hq]
  exact ⟨rfl, rfl, rfl⟩

theorem listCIDs_zero_events_ok_witness :
    (listCIDsForAddress pluginDefault netOk "0xBob" 3).fst = Except.ok () ∧
    (listCIDsForAddress pluginDefault netOk "0xBob" 3).snd
      = [LogLine.noCids "0xBob"] :=
  ⟨(listCIDs_zero_events_ok pluginDefault netOk "0xBob" 3 rfl).1,
   (listCIDs_zero_events_ok pluginDefault netOk "0xBob" 3 rfl).2.1⟩

/-- A header line contributes no cid to the yielded cids. -/
theorem cidsLogged_header_cons (addr : String) (logs : List LogLine) :
    cidsLogged (LogLine.header addr :: logs) = cidsLogged logs := rfl

/-- A cid line contributes exactly its cid to the yielded cids. -/
theorem cidsLogged_cidLine_cons (c : String) (logs : List LogLine) :
    cidsLogged (LogLine.cidLine c :: logs) = c :: cidsLogged logs := rfl

/-- The cid lines built from a list of events yield exactly the events' cid
fields, in order. -/
theorem cidsLogged_cidLines (evs : List EventLog) :
    cidsLogged (List.map (fun e => LogLine.cidLine e.cid) evs)
      = List.map EventLog.cid evs := by
  induction evs with
  | nil => rfl
  | cons ev rest ih =>
      rw [List.map_cons, cidsLogged_cidLine_cons, ih, List.map_cons]

/-- C4: when the event query returns exactly the matching events, in
non-decreasing block order, `listCIDsForAddress` succeeds and yields exactly
those N CID strings, each exactly as emitted and in the query's (block) order;
zero events give an empty yield rather than an error. -/
theorem listCIDs_yields_exactly_event_cids
    (p : IPFSStoragePlugin) (net : Network) (addr : String) (sb : Nat)
    (evs : List EventLog)
    (hq : net.getPastEvents p.registryAddress addr sb = Except.ok evs)
    (hsorted : nondecreasing (evs.map EventLog.blockNumber) = true)
    (hown : ∀ ev ∈ evs, ev.owner = addr) :
    (listCIDsForAddress p net addr sb).fst = Except.ok () ∧
    cidsLogged (listCIDsForAddress p net addr sb).snd = evs.map EventLog.cid := by
  unfold listCIDsForAddress
  rw [hq]
  dsimp only
  by_cases hempty : evs = []
  · subst hempty
    exact ⟨rfl, rfl⟩
  · rw [if_neg (by simpa [List.length_eq_zero] using hempty)]
    exact ⟨rfl, by rw [cidsLogged_header_cons, cidsLogged_cidLines]⟩

theorem listCIDs_yields_exactly_event_cids_witness :
    nondecreasing (List.map EventLog.blockNumber
      [{ blockNumber := 5, owner := "0xAlice", cid := "Qm1" },
       { blockNumber := 7, owner := "0xAlice", cid := "Qm2" }]) = true ∧
    (listCIDsForAddress pluginDefault netTwoEvents "0xAlice" 0).fst = Except.ok () ∧
    cidsLogged (listCIDsForAddress pluginDefault netTwoEvents "0xAlice" 0).snd
      = List.map EventLog.cid
          [{ blockNumber := 5, owner := "0xAlice", cid := "Qm1" },
           { blockNumber := 7, owner := "0xAlice", cid := "Qm2" }] :=
  ⟨by decide,
   (listCIDs_yields_exactly_event_cids pluginDefault netTwoEvents "0xAlice" 0
      [{ blockNumber := 5, owner := "0xAlice", cid := "Qm1" },
       { blockNumber := 7, owner := "0xAlice", cid := "Qm2" }]
      rfl (by decide) (by decide)).1,
   (listCIDs_yields_exactly_event_cids pluginDefault netTwoEvents "0xAlice" 0
      [{ blockNumber := 5, owner := "0xAlice", cid := "Qm1" },
       { blockNumber := 7, owner := "0xAlice", cid := "Qm2" }]
      rfl (by decide) (by decide)).2⟩

/-- C9: running `listCIDsForAddress` twice with identical arguments against an
unchanged chain (the same event-query oracle both times) yields identical
results — the first run leaves the plugin state it was given unchanged, so the
second run computes the same value. -/
theorem listCIDs_idempotent (p : IPFSStoragePlugin) (net : Network)
    (addr : String) (sb : Nat) :
    ((p.listCIDsRun net addr sb).snd.listCIDsRun net addr sb).fst
      = (p.listCIDsRun net addr sb).fst := by
  rfl

end IPFSStorage
